import Mathlib

/-!
Verification development for the timing/profiling subsystem of the
arc_utilities repository (include/arc_utilities/timing.hpp).

The `Stopwatch` class is defined inline in the header and is embedded
directly from that source.  Monotonic clock instants and floating-point
durations (seconds, `double` in the source) are modelled as exact
rationals; the current instant returned by the clock is passed as an
explicit argument to every operation that reads it.

The `Profiler` member functions are only declared in the header (their
bodies live in a translation unit that is not among the sources), so the
profiler operations are modelled from the specification, as marked in
their doc comments.
-/

namespace ArcUtilities

/-- A monotonic clock instant, modelled as an exact rational number of
seconds.  Only differences between two instants are meaningful. -/
abbrev Instant := ℚ

/-- `enum StopwatchControl {RESET, READ}` from timing.hpp. -/
inductive StopwatchControl
  | RESET
  | READ
deriving DecidableEq, Repr

/-- `class Stopwatch` from timing.hpp: it holds the single anchor
`start_time_` (a `std::chrono::steady_clock::time_point`). -/
structure Stopwatch where
  start_time_ : Instant
deriving DecidableEq, Repr

/-- `Stopwatch::operator()(control)` from timing.hpp.  The source reads
`end_time = steady_clock::now()`, reassigns `start_time_ = end_time` when
`control == RESET`, and then returns `end_time - start_time_` computed
from the member as it stands after that possible reassignment.  The
current instant `end_time` is an explicit argument here; the result is
the returned duration paired with the stopwatch state after the call. -/
def Stopwatch.call (sw : Stopwatch) (control : StopwatchControl) (end_time : Instant) :
    ℚ × Stopwatch :=
  let sw' := if control = StopwatchControl.RESET then { start_time_ := end_time } else sw
  (end_time - sw'.start_time_, sw')

/-- Modelled from the spec: the error taxonomy of §7.  `record(name)` with
no prior `startTimer(name)` is a PreconditionViolation that must be
surfaced explicitly. -/
inductive ProfilerError
  | preconditionViolation (name : String)
deriving DecidableEq, Repr

/-- Modelled from the spec: the `Profiler` singleton state of §3 — a
(key → data series) map and a (key → named timer) map, both lazily
populated.  The bodies of the `Profiler` member functions are not among
the sources (timing.hpp only declares them), so the maps are modelled as
total functions with empty defaults: a key that was never written has an
empty series and no timer. -/
structure Profiler where
  data : String → List ℚ
  timers : String → Option Stopwatch

/-- Modelled from the spec: the freshly created singleton state, before
any key has been written. -/
def Profiler.initial : Profiler :=
  { data := fun _ => [], timers := fun _ => none }

/-- Modelled from the spec (§4.3): `getData(name)` returns the full
ordered sequence of recorded values for `name`, empty if the key has
never been written. -/
def Profiler.getData (p : Profiler) (name : String) : List ℚ :=
  p.data name

/-- Modelled from the spec (§4.3): `addData(name, value)` appends the
caller-supplied scalar directly to the key's data series, bypassing the
timers entirely. -/
def Profiler.addData (p : Profiler) (name : String) (datum : ℚ) : Profiler :=
  { p with data := fun k => if k = name then p.data k ++ [datum] else p.data k }

/-- Modelled from the spec (§4.3): `startTimer(name)` creates the named
timer if absent, or resets it if present, anchored at the current
instant — start-or-restart semantics. -/
def Profiler.startTimer (p : Profiler) (timer_name : String) (now : Instant) : Profiler :=
  { p with
    timers := fun k => if k = timer_name then some { start_time_ := now } else p.timers k }

/-- Modelled from the spec (§4.3, §7): `record(name)` requires a timer for
`name` to exist; when it does, it reads the timer in READ mode (so the
timer keeps running), appends the reading to the key's data series and
returns it; when it does not, the call signals a PreconditionViolation
instead of fabricating a near-zero reading. -/
def Profiler.record (p : Profiler) (timer_name : String) (now : Instant) :
    Except ProfilerError (ℚ × Profiler) :=
  match p.timers timer_name with
  | none => .error (.preconditionViolation timer_name)
  | some sw =>
    let v := (sw.call StopwatchControl.READ now).1
    .ok (v, { p with data := fun k => if k = timer_name then p.data k ++ [v] else p.data k })

/-- Modelled from the spec (§4.3): `reset(name)` clears the data series
and timer for exactly one key; absence of the key is not an error. -/
def Profiler.reset (p : Profiler) (name : String) : Profiler :=
  { data := fun k => if k = name then [] else p.data k,
    timers := fun k => if k = name then none else p.timers k }

/-- Modelled from the spec (§4.3): `reset_and_preallocate(num_names,
num_events)` clears both maps entirely; the two arguments are only a
storage-capacity hint and never affect observable behaviour. -/
def Profiler.reset_and_preallocate (p : Profiler) (num_names num_events : ℕ) : Profiler :=
  Profiler.initial

/-- The profiler state after one `record(name)` call, discarding the
returned duration (an erroring call leaves the state unchanged). -/
def Profiler.recordStep (p : Profiler) (timer_name : String) (now : Instant) : Profiler :=
  match p.record timer_name now with
  | .ok (_, p') => p'
  | .error _ => p

/-- The profiler state after successive `record(name)` calls at the given
sequence of clock instants. -/
def Profiler.recordMany (p : Profiler) (timer_name : String) : List Instant → Profiler
  | [] => p
  | t :: ts => (p.recordStep timer_name t).recordMany timer_name ts

/-- The durations returned by successive `record(name)` calls at the
given sequence of clock instants (erroring calls return none). -/
def Profiler.recordValues (p : Profiler) (timer_name : String) : List Instant → List ℚ
  | [] => []
  | t :: ts =>
    match p.record timer_name t with
    | .ok (v, p') => v :: p'.recordValues timer_name ts
    | .error _ => p.recordValues timer_name ts

/-- The profiling entry points of the toggle layer of timing.hpp
(PROFILE_REINITIALIZE, PROFILE_RESET, PROFILE_START, PROFILE_RECORD,
PROFILE_PRINT_SUMMARY_FOR_SINGLE, PROFILE_PRINT_SUMMARY_FOR_GROUP), with
the arguments each one takes at a call site. -/
inductive ProfileDirective
  | REINITIALIZE (prealloc_num_names prealloc_num_events : ℕ)
  | RESET (name : String)
  | START (name : String)
  | RECORD (name : String)
  | PRINT_SUMMARY_FOR_SINGLE (name : String)
  | PRINT_SUMMARY_FOR_GROUP (names : List String)

/-- The effect on the profiler state of the Profiler operation that an
entry point forwards to when ENABLE_PROFILING is defined.  The two print
operations read the series and emit text but do not change the state. -/
def profileForward (p : Profiler) (now : Instant) : ProfileDirective → Profiler
  | .REINITIALIZE n e => p.reset_and_preallocate n e
  | .RESET name => p.reset name
  | .START name => p.startTimer name now
  | .RECORD name => p.recordStep name now
  | .PRINT_SUMMARY_FOR_SINGLE _ => p
  | .PRINT_SUMMARY_FOR_GROUP _ => p

/-- The expansion of a profiling entry point from timing.hpp: with
ENABLE_PROFILING defined it forwards to the matching Profiler operation;
without it every entry point expands to the inert expression `(void) 0`,
which performs no work and leaves the state untouched. -/
def expandProfileDirective (enable_profiling : Bool) (p : Profiler) (now : Instant)
    (d : ProfileDirective) : Profiler :=
  if enable_profiling then profileForward p now d else p

/-!  Helper lemmas shared by the claim theorems.  -/

/-- `record` on a key whose timer exists: the returned duration is the
READ of that stopwatch, the series for the key grows by that one value,
and nothing else changes. -/
theorem Profiler.record_some (p : Profiler) (name : String) (sw : Stopwatch) (now : Instant)
    (h : p.timers name = some sw) :
    p.record name now =
      .ok (now - sw.start_time_,
        { p with
          data := fun k =>
            if k = name then p.data k ++ [now - sw.start_time_] else p.data k }) := by
  simp [Profiler.record, h, Stopwatch.call]

/-- `recordStep` never changes the timer map. -/
theorem Profiler.recordStep_timers (p : Profiler) (name : String) (now : Instant) :
    (p.recordStep name now).timers = p.timers := by
  unfold Profiler.recordStep Profiler.record
  cases h : p.timers name <;> simp

/-- `recordStep` on a key with a live timer appends the READ duration to
that key's series. -/
theorem Profiler.recordStep_data (p : Profiler) (name : String) (sw : Stopwatch) (now : Instant)
    (h : p.timers name = some sw) :
    (p.recordStep name now).data name = p.data name ++ [now - sw.start_time_] := by
  unfold Profiler.recordStep
  rw [Profiler.record_some p name sw now h]
  simp

/-- With a live timer for `name`, a run of `record` calls appends exactly
the elapsed times of the successive clock instants, in call order. -/
theorem Profiler.recordMany_data (name : String) (sw : Stopwatch) (ts : List Instant) :
    ∀ p : Profiler, p.timers name = some sw →
      (p.recordMany name ts).data name = p.data name ++ ts.map (fun t => t - sw.start_time_) := by
  induction ts with
  | nil => intro p _; simp [Profiler.recordMany]
  | cons t ts ih =>
    intro p h
    have hts : (p.recordStep name t).timers name = some sw := by
      rw [Profiler.recordStep_timers]; exact h
    calc (p.recordMany name (t :: ts)).data name
        = ((p.recordStep name t).recordMany name ts).data name := rfl
      _ = (p.recordStep name t).data name ++ ts.map (fun u => u - sw.start_time_) :=
          ih (p.recordStep name t) hts
      _ = p.data name ++ [t - sw.start_time_] ++ ts.map (fun u => u - sw.start_time_) := by
          rw [Profiler.recordStep_data p name sw t h]
      _ = p.data name ++ (t :: ts).map (fun u => u - sw.start_time_) := by simp

/-- With a live timer for `name`, the durations returned by a run of
`record` calls are the elapsed times of the successive clock instants. -/
theorem Profiler.recordValues_eq (name : String) (sw : Stopwatch) (ts : List Instant) :
    ∀ p : Profiler, p.timers name = some sw →
      p.recordValues name ts = ts.map (fun t => t - sw.start_time_) := by
  induction ts with
  | nil => intro p _; simp [Profiler.recordValues]
  | cons t ts ih =>
    intro p h
    unfold Profiler.recordValues
    rw [Profiler.record_some p name sw t h]
    simp only [List.map_cons]
    congr 1
    exact ih _ h

/-- `startTimer` installs a stopwatch anchored at the given instant. -/
theorem Profiler.startTimer_timers_self (p : Profiler) (name : String) (now : Instant) :
    (p.startTimer name now).timers name = some { start_time_ := now } := by
  simp [Profiler.startTimer]

/-!  Claim theorems.  -/

/-- C1: for every key, `record(name)` with no prior `startTimer(name)`
signals a PreconditionViolation immediately and explicitly, and returns
no numeric value — it never silently creates a default-anchored timer and
returns a fabricated near-zero duration. -/
theorem record_unstarted_signals_precondition_violation (p : Profiler) (name : String)
    (now : Instant) (h : p.timers name = none) :
    p.record name now = .error (.preconditionViolation name) := by
  simp [Profiler.record, h]

/-- Witness for C1 at a concrete input: `record("unstarted")` on the
fresh profiler errors out. -/
theorem record_unstarted_signals_precondition_violation_witness :
    Profiler.initial.record "unstarted" 0 =
      .error (.preconditionViolation "unstarted") :=
  record_unstarted_signals_precondition_violation Profiler.initial "unstarted" 0 rfl

/-- C2 as stated is false on the code: a RESET invocation does not return
the elapsed seconds from the current anchor up to the call.  With the
anchor at instant 0 and the call at instant 5, the elapsed time is 5 but
the call returns 0, because the source reassigns `start_time_` before
computing the returned difference. -/
theorem stopwatch_reset_elapsed_counterexample :
    ((Stopwatch.mk 0).call StopwatchControl.RESET 5).1 ≠ 5 - (Stopwatch.mk 0).start_time_ := by
  norm_num [Stopwatch.call]

/-- C2 (amended): a RESET invocation moves the anchor to now and returns
the elapsed seconds from the NEW anchor — exactly 0, not the time
accumulated since the previous anchor — and a subsequent READ measures
elapsed time from the reset point rather than from the original
anchoring. -/
theorem stopwatch_reset_reanchors (sw : Stopwatch) (now later : Instant) :
    (sw.call StopwatchControl.RESET now).1 = 0 ∧
    (sw.call StopwatchControl.RESET now).2.start_time_ = now ∧
    ((sw.call StopwatchControl.RESET now).2.call StopwatchControl.READ later).1 = later - now := by
  refine ⟨by simp [Stopwatch.call], rfl, by simp [Stopwatch.call]⟩

/-- C3: with a live timer, `record(name)` reads the timer's elapsed time
without resetting it (the timer map is unchanged), appends that value to
the key's series and returns it; consequently `startTimer("A")` followed
by N `record("A")` calls leaves `getData("A")` with exactly the N elapsed
times, in call order. -/
theorem record_appends_and_counts :
    (∀ (p : Profiler) (name : String) (sw : Stopwatch) (now : Instant),
      p.timers name = some sw →
      ∃ p' : Profiler, p.record name now = .ok (now - sw.start_time_, p') ∧
        p'.timers = p.timers ∧
        p'.getData name = p.getData name ++ [now - sw.start_time_]) ∧
    (∀ (p : Profiler) (name : String) (t0 : Instant) (ts : List Instant),
      p.getData name = [] →
      ((p.startTimer name t0).recordMany name ts).getData name
        = ts.map (fun t => t - t0)) := by
  constructor
  · intro p name sw now h
    refine ⟨_, Profiler.record_some p name sw now h, rfl, ?_⟩
    simp [Profiler.getData]
  · intro p name t0 ts hempty
    have h := Profiler.recordMany_data name { start_time_ := t0 } ts (p.startTimer name t0)
      (Profiler.startTimer_timers_self p name t0)
    unfold Profiler.getData at hempty ⊢
    rw [h]
    have hdata : (p.startTimer name t0).data name = p.data name := rfl
    rw [hdata, hempty]
    simp

/-- Witness for C3 at a concrete input: starting a timer at instant 0 and
recording at instants 1, 2, 3 leaves the series [1, 2, 3]. -/
theorem record_appends_and_counts_witness :
    ((Profiler.initial.startTimer "A" 0).recordMany "A" [1, 2, 3]).getData "A" = [1, 2, 3] := by
  have h := record_appends_and_counts.2 Profiler.initial "A" 0 [1, 2, 3] rfl
  rw [h]
  norm_num

/-- C4: `reset(A)` clears exactly key A's series and timer, every other
key's series and timer is unchanged, and resetting an absent key changes
nothing observable (a no-op). -/
theorem reset_clears_only_named_key (p : Profiler) (A B : String) (h : B ≠ A) :
    (p.reset A).getData A = [] ∧ (p.reset A).timers A = none ∧
    (p.reset A).getData B = p.getData B ∧ (p.reset A).timers B = p.timers B ∧
    (p.getData A = [] → p.timers A = none →
      ∀ k, (p.reset A).getData k = p.getData k ∧ (p.reset A).timers k = p.timers k) := by
  refine ⟨by simp [Profiler.reset, Profiler.getData], by simp [Profiler.reset], ?_, ?_, ?_⟩
  · simp [Profiler.reset, Profiler.getData, h]
  · simp [Profiler.reset, h]
  · intro hd ht k
    by_cases hk : k = A
    · subst hk
      exact ⟨by simp [Profiler.reset, Profiler.getData] at hd ⊢; exact hd,
        by simp [Profiler.reset] at ht ⊢; exact ht.symm⟩
    · exact ⟨by simp [Profiler.reset, Profiler.getData, hk],
        by simp [Profiler.reset, hk]⟩

/-- Witness for C4 at a concrete input: after putting a datum under "B",
resetting "A" leaves "B" untouched, and resetting the absent key "A" on
the fresh profiler clears nothing that was there. -/
theorem reset_clears_only_named_key_witness :
    ((Profiler.initial.addData "B" 5).reset "A").getData "B"
      = (Profiler.initial.addData "B" 5).getData "B" ∧
    (Profiler.initial.reset "A").getData "A" = [] :=
  ⟨(reset_clears_only_named_key (Profiler.initial.addData "B" 5) "A" "B" (by decide)).2.2.1,
    (reset_clears_only_named_key Profiler.initial "A" "B" (by decide)).1⟩

/-- C5: `reset_and_preallocate` clears both the timer map and the data
map entirely (every key reads back empty with no timer), is idempotent,
and the preallocation hint never affects observable behaviour — any two
calls from any states with any hints leave identical states. -/
theorem reset_and_preallocate_full_wipe (p q : Profiler) (num_names num_events n2 e2 : ℕ)
    (k : String) :
    (p.reset_and_preallocate num_names num_events).getData k = [] ∧
    (p.reset_and_preallocate num_names num_events).timers k = none ∧
    (p.reset_and_preallocate num_names num_events).reset_and_preallocate num_names num_events
      = p.reset_and_preallocate num_names num_events ∧
    p.reset_and_preallocate num_names num_events = q.reset_and_preallocate n2 e2 :=
  ⟨rfl, rfl, rfl, rfl⟩

/-- C6: `addData(name, value)` appends directly to the named series
without touching any timer or any other key, and `getData` returns the
full ordered sequence, empty for a never-written key; in particular
`addData("X", 5)` with no timer ever started for "X" yields
`getData("X") = [5]` and still no timer for "X". -/
theorem addData_bypasses_timers (p : Profiler) (name k : String) (value : ℚ)
    (h : k ≠ name) :
    (p.addData name value).timers = p.timers ∧
    (p.addData name value).getData name = p.getData name ++ [value] ∧
    (p.addData name value).getData k = p.getData k ∧
    Profiler.initial.getData k = [] ∧
    (Profiler.initial.addData "X" 5).getData "X" = [5] ∧
    (Profiler.initial.addData "X" 5).timers "X" = none := by
  refine ⟨rfl, by simp [Profiler.addData, Profiler.getData],
    by simp [Profiler.addData, Profiler.getData, h], rfl,
    by simp [Profiler.addData, Profiler.getData, Profiler.initial], rfl⟩

/-- Witness for C6 at a concrete input: writing under "X" leaves the
unrelated key "Y" reading back as it did before. -/
theorem addData_bypasses_timers_witness :
    (Profiler.initial.addData "X" 5).getData "Y" = Profiler.initial.getData "Y" :=
  (addData_bypasses_timers Profiler.initial "X" "Y" 5 (by decide)).2.2.1

/-- C7: a READ invocation returns the elapsed seconds since the anchor
and mutates nothing — the stopwatch after the call is identical to the
stopwatch before it, so successive READs measure from the same anchor. -/
theorem stopwatch_read_does_not_mutate (sw : Stopwatch) (now : Instant) :
    (sw.call StopwatchControl.READ now).2 = sw ∧
    (sw.call StopwatchControl.READ now).1 = now - sw.start_time_ :=
  ⟨rfl, rfl⟩

/-- C8: after `startTimer("A")`, a run of `record("A")` calls under a
monotonic clock (the start instant and the successive call instants form
a non-decreasing chain) returns durations that are all ≥ 0 and form a
monotonically non-decreasing sequence. -/
theorem record_durations_nonneg_monotone (p : Profiler) (name : String) (t0 : Instant)
    (ts : List Instant) (hclock : List.Chain' (fun a b => a ≤ b) (t0 :: ts)) :
    (∀ d ∈ (p.startTimer name t0).recordValues name ts, 0 ≤ d) ∧
    List.Chain' (fun a b => a ≤ b) ((p.startTimer name t0).recordValues name ts) := by
  have hvals := Profiler.recordValues_eq name { start_time_ := t0 } ts (p.startTimer name t0)
    (Profiler.startTimer_timers_self p name t0)
  rw [hvals]
  have hpair := List.chain'_iff_pairwise.mp hclock
  rw [List.pairwise_cons] at hpair
  constructor
  · intro d hd
    rw [List.mem_map] at hd
    obtain ⟨t, ht, rfl⟩ := hd
    exact sub_nonneg.mpr (hpair.1 t ht)
  · have hts : List.Chain' (fun a b => a ≤ b) ts := List.chain'_iff_pairwise.mpr hpair.2
    exact List.chain'_map_of_chain' _ (fun a b hab => sub_le_sub_right hab _) hts

/-- Witness for C8 at a concrete input: a timer started at instant 0 and
recorded at instants 1, 2, 2 yields a non-decreasing sequence. -/
theorem record_durations_nonneg_monotone_witness :
    List.Chain' (fun a b => a ≤ b)
      ((Profiler.initial.startTimer "A" 0).recordValues "A" [1, 2, 2]) :=
  (record_durations_nonneg_monotone Profiler.initial "A" 0 [1, 2, 2]
    (by norm_num [List.chain'_cons, List.chain'_singleton])).2

/-- C9: with ENABLE_PROFILING undefined every profiling entry point is
inert and leaves the state completely unchanged; with it defined each
entry point forwards literally to the matching Profiler operation (the
print entry points read and emit but do not change the state). -/
theorem profile_entry_points_toggle (p : Profiler) (now : Instant) (d : ProfileDirective)
    (n e : ℕ) (name : String) (names : List String) :
    expandProfileDirective false p now d = p ∧
    expandProfileDirective true p now (.REINITIALIZE n e) = p.reset_and_preallocate n e ∧
    expandProfileDirective true p now (.RESET name) = p.reset name ∧
    expandProfileDirective true p now (.START name) = p.startTimer name now ∧
    expandProfileDirective true p now (.RECORD name) = p.recordStep name now ∧
    expandProfileDirective true p now (.PRINT_SUMMARY_FOR_SINGLE name) = p ∧
    expandProfileDirective true p now (.PRINT_SUMMARY_FOR_GROUP names) = p :=
  ⟨rfl, rfl, rfl, rfl, rfl, rfl, rfl⟩

/-- C10: a RESET invocation returns exactly 0: the implementation
reassigns the anchor to the current instant before computing the returned
difference, so the returned value is the elapsed time from the new
anchor, not the time accumulated since the previous anchor. -/
theorem stopwatch_reset_returns_zero (sw : Stopwatch) (now : Instant) :
    (sw.call StopwatchControl.RESET now).1 = 0 ∧
    (sw.call StopwatchControl.RESET now).2.start_time_ = now := by
  refine ⟨by simp [Stopwatch.call], rfl⟩

end ArcUtilities
